import Mathlib

/-!
# ShopEase order checkout and cart pricing pipeline — verification

A shallow embedding of the cart / checkout / order-lifecycle logic of
`backend/app/routes/cart.py`, `backend/app/routes/orders.py` and
`backend/app/routes/admin.py`, together with theorems settling the
behavioural claims about that code.

Modelling conventions:
* Python floats are modelled as rationals (`ℚ`); Python `round(x, 2)`
  (round-half-to-even) is `round2`.
* Python ints are modelled as `ℤ`.
* The Firestore document store is modelled by `DB`: association lists for
  products and addresses, a list of carts, and a list of orders whose
  document id is the list index (repository `create` appends and returns
  the fresh index).
* Wall-clock/uuid derived values (order number, transaction id, estimated
  delivery) are inputs to `createOrder`, since the code computes them from
  `datetime.utcnow()` / `uuid4()`.
* FastAPI `HTTPException` is the `HTTPError` value of an `Except` result;
  route handlers thread the store state explicitly: a handler of the
  Python shape `db -> raises-or-returns` becomes `DB → DB × Except HTTPError α`,
  with the returned `DB` reflecting every repository write the handler
  performed before returning or raising.
-/

namespace ShopEase

/-- Python `round(x, 2)` rounds half to even; this is the integer part:
round a rational to the nearest integer, ties to the even integer. -/
def roundHalfEven (x : ℚ) : ℤ :=
  let n := ⌊x⌋
  let r := x - n
  if r < 1/2 then n
  else if 1/2 < r then n + 1
  else if n % 2 = 0 then n else n + 1

/-- Python `round(x, 2)`: round to two decimal places, half to even. -/
def round2 (x : ℚ) : ℚ := (roundHalfEven (x * 100) : ℚ) / 100

/-- `FREE_SHIPPING_THRESHOLD = 500.0` (identical constant in cart.py and
orders.py). -/
def FREE_SHIPPING_THRESHOLD : ℚ := 500

/-- `SHIPPING_COST = 40.0` (identical constant in cart.py and orders.py). -/
def SHIPPING_COST : ℚ := 40

/-- Order status enumeration (`OrderStatus` in models/order.py); the
Python enum is a `str` enum, each constructor stands for its string value. -/
inductive OrderStatus where
  | pending | confirmed | processing | shipped | out_for_delivery
  | delivered | cancelled | returned | refunded
deriving DecidableEq, Repr

/-- The string value of an `OrderStatus` member. -/
def OrderStatus.toStr : OrderStatus → String
  | .pending => "pending"
  | .confirmed => "confirmed"
  | .processing => "processing"
  | .shipped => "shipped"
  | .out_for_delivery => "out_for_delivery"
  | .delivered => "delivered"
  | .cancelled => "cancelled"
  | .returned => "returned"
  | .refunded => "refunded"

/-- Payment method enumeration (`PaymentMethod` in models/order.py). -/
inductive PaymentMethod where
  | card | upi | net_banking | wallet | cod
deriving DecidableEq, Repr

/-- Payment status enumeration (`PaymentStatus` in models/order.py). -/
inductive PaymentStatus where
  | pending | processing | completed | failed | refunded | cancelled
deriving DecidableEq, Repr

/-- A catalog product document (the fields the cart/checkout code reads). -/
structure Product where
  name : String
  price : ℚ
  stock_quantity : ℤ
  is_active : Bool
  thumbnail : Option String
  images : List String
deriving DecidableEq, Repr

/-- `product.get("thumbnail") or (product.get("images", [None])[0] if
product.get("images") else None)` — Python truthiness: an absent or empty
thumbnail falls back to the first image, an absent or empty image list
gives `None`. -/
def Product.image (p : Product) : Option String :=
  match p.thumbnail with
  | some t => if t = "" then p.images.head? else some t
  | none => p.images.head?

/-- A stored cart line: `{product_id, quantity}`. -/
structure CartLine where
  product_id : String
  quantity : ℤ
deriving DecidableEq, Repr

/-- A cart document: `{id, user_id, items}`. -/
structure Cart where
  id : String
  user_id : String
  items : List CartLine
deriving DecidableEq, Repr

/-- A saved address document (the fields checkout reads; every field is
read with `.get(...)`, hence `Option`, except the owner id). -/
structure Address where
  user_id : String
  full_name : Option String
  phone : Option String
  address_line1 : Option String
  address_line2 : Option String
  landmark : Option String
  city : Option String
  state : Option String
  pincode : Option String
  country : Option String
deriving DecidableEq, Repr

/-- The shipping-address snapshot embedded in an order document
(step 7 of `create_order`). -/
structure ShippingAddress where
  full_name : Option String
  phone : Option String
  address_line1 : Option String
  address_line2 : Option String
  landmark : Option String
  city : Option String
  state : Option String
  pincode : Option String
  country : String
deriving DecidableEq, Repr

/-- `create_order` step 7: copy the address fields into the order,
defaulting a missing country to `"India"`. -/
def snapshotAddress (a : Address) : ShippingAddress :=
  { full_name := a.full_name
    phone := a.phone
    address_line1 := a.address_line1
    address_line2 := a.address_line2
    landmark := a.landmark
    city := a.city
    state := a.state
    pincode := a.pincode
    country := a.country.getD "India" }

/-- An order line snapshot as built by `build_order_items`. -/
structure OrderItem where
  product_id : String
  product_name : String
  product_image : Option String
  price : ℚ
  quantity : ℤ
  subtotal : ℚ
deriving DecidableEq, Repr

/-- An order document as assembled by `create_order` step 9. -/
structure Order where
  order_number : String
  user_id : String
  items : List OrderItem
  shipping_address : ShippingAddress
  status : OrderStatus
  payment_method : PaymentMethod
  payment_status : PaymentStatus
  transaction_id : String
  subtotal : ℚ
  shipping_cost : ℚ
  discount : ℚ
  total : ℚ
  notes : Option String
  estimated_delivery : String
deriving DecidableEq, Repr

/-- Document lookup by id in a collection (the repository
`get_by_id(id) -> doc | None` contract). -/
def alookup {α : Type} : List (String × α) → String → Option α
  | [], _ => none
  | (k, v) :: rest, key => if k = key then some v else alookup rest key

/-- The document store: products and addresses keyed by document id,
carts as documents, orders keyed by their index (repository `create`
appends and returns the new index as the document id). -/
structure DB where
  products : List (String × Product)
  carts : List Cart
  addresses : List (String × Address)
  orders : List Order
deriving DecidableEq, Repr

/-- `product_repo.get_by_id`. -/
def DB.getProduct (db : DB) (pid : String) : Option Product :=
  alookup db.products pid

/-- `product_repo.update(pid, fields)` restricted to one document: apply
`f` to the product stored under `pid`; no-op when the document is
absent. -/
def DB.mapProduct (db : DB) (pid : String) (f : Product → Product) : DB :=
  { db with
    products := db.products.map fun kv =>
      if kv.1 = pid then (kv.1, f kv.2) else kv }

/-- `product_repo.update(pid, {"stock_quantity": s})`. -/
def DB.setStock (db : DB) (pid : String) (s : ℤ) : DB :=
  db.mapProduct pid fun p => { p with stock_quantity := s }

/-- `product_repo.update(pid, {"price": q})` — the admin catalog price
edit relevant to the price-lock claim. -/
def DB.setPrice (db : DB) (pid : String) (q : ℚ) : DB :=
  db.mapProduct pid fun p => { p with price := q }

/-- `cart_repo.get_user_cart`: first cart document whose `user_id`
matches. -/
def DB.getUserCart (db : DB) (uid : String) : Option Cart :=
  db.carts.find? fun c => c.user_id = uid

/-- `cart_repo.update(cart_id, {"items": items})`. -/
def DB.setCartItems (db : DB) (cart_id : String) (items : List CartLine) : DB :=
  { db with
    carts := db.carts.map fun c =>
      if c.id = cart_id then { c with items := items } else c }

/-- `cart_repo.clear_cart(user_id)`: look the cart up and empty its item
list; no-op when the user has no cart. -/
def DB.clearCart (db : DB) (uid : String) : DB :=
  match db.getUserCart uid with
  | none => db
  | some cart => db.setCartItems cart.id []

/-- `address_repo.get_by_id`. -/
def DB.getAddress (db : DB) (aid : String) : Option Address :=
  alookup db.addresses aid

/-- `order_repo.get_by_id` (order ids are list indices). -/
def DB.getOrder (db : DB) (oid : ℕ) : Option Order :=
  db.orders.get? oid

/-- `order_repo.create`: append the document, return its id. -/
def DB.createOrderDoc (db : DB) (o : Order) : DB × ℕ :=
  ({ db with orders := db.orders ++ [o] }, db.orders.length)

/-- `order_repo.update(oid, fields)`: partial update of one order
document; no-op when the document is absent. -/
def DB.updateOrder (db : DB) (oid : ℕ) (f : Order → Order) : DB :=
  match db.orders.get? oid with
  | none => db
  | some o => { db with orders := db.orders.set oid (f o) }

/-- A FastAPI `HTTPException` as raised by the route handlers. -/
structure HTTPError where
  code : ℕ
  detail : String
deriving DecidableEq, Repr

instance {ε α : Type} [DecidableEq ε] [DecidableEq α] : DecidableEq (Except ε α)
  | .error a, .error b =>
    if h : a = b then .isTrue (h ▸ rfl)
    else .isFalse fun hh => h (Except.error.inj hh)
  | .error _, .ok _ => .isFalse Except.noConfusion
  | .ok _, .error _ => .isFalse Except.noConfusion
  | .ok a, .ok b =>
    if h : a = b then .isTrue (h ▸ rfl)
    else .isFalse fun hh => h (Except.ok.inj hh)

/-! ## Cart routes (`backend/app/routes/cart.py`) -/

/-- An enriched cart line as produced by `enrich_cart_items`. -/
structure EnrichedItem where
  product_id : String
  product_name : String
  product_image : Option String
  price : ℚ
  quantity : ℤ
  subtotal : ℚ
  in_stock : Bool
  stock_quantity : ℤ
deriving DecidableEq, Repr

/-- The body of the `enrich_cart_items` loop for one line whose product
was found (name/price/stock defaults as in the `.get` calls). -/
def enrichLine (line : CartLine) (product : Product) : EnrichedItem :=
  { product_id := line.product_id
    product_name := product.name
    product_image := product.image
    price := product.price
    quantity := line.quantity
    subtotal := round2 (product.price * line.quantity)
    in_stock := 0 < product.stock_quantity
    stock_quantity := product.stock_quantity }

/-- `enrich_cart_items`: join each line with live product data, silently
skipping lines whose product is missing or inactive. -/
def enrichCartItems (db : DB) : List CartLine → List EnrichedItem
  | [] => []
  | line :: rest =>
    match db.getProduct line.product_id with
    | some product =>
      if product.is_active then
        enrichLine line product :: enrichCartItems db rest
      else
        enrichCartItems db rest
    | none => enrichCartItems db rest

/-- The totals dict returned by `calculate_cart_totals`. -/
structure CartTotals where
  subtotal : ℚ
  shipping : ℚ
  total : ℚ
deriving DecidableEq, Repr

/-- Sum of the `subtotal` fields of enriched items
(`sum(item.get("subtotal", 0) for item in items)`). -/
def sumSubtotals (items : List EnrichedItem) : ℚ :=
  (items.map (·.subtotal)).sum

/-- `calculate_cart_totals`: subtotal, free-or-flat shipping, total. -/
def calculateCartTotals (items : List EnrichedItem) : CartTotals :=
  let subtotal := sumSubtotals items
  let shipping := if subtotal ≥ FREE_SHIPPING_THRESHOLD then 0 else SHIPPING_COST
  let total := round2 (subtotal + shipping)
  { subtotal := round2 subtotal, shipping := shipping, total := total }

/-- The `CartResponse` payload assembled by `format_cart_response`. -/
structure CartView where
  id : String
  user_id : String
  items : List EnrichedItem
  item_count : ℤ
  subtotal : ℚ
  shipping : ℚ
  total : ℚ
deriving DecidableEq, Repr

/-- `format_cart_response`. -/
def formatCartResponse (cart : Cart) (enriched : List EnrichedItem)
    (totals : CartTotals) : CartView :=
  { id := cart.id
    user_id := cart.user_id
    items := enriched
    item_count := (enriched.map (·.quantity)).sum
    subtotal := totals.subtotal
    shipping := totals.shipping
    total := totals.total }

/-- `get_or_create_cart`: return the user's cart, creating an empty one
first when absent. `freshId` stands for the Firestore-generated document
id of a newly created cart. -/
def getOrCreateCart (db : DB) (uid : String) (freshId : String) : DB × Cart :=
  match db.getUserCart uid with
  | some cart => (db, cart)
  | none =>
    let cart : Cart := { id := freshId, user_id := uid, items := [] }
    ({ db with carts := db.carts ++ [cart] }, cart)

/-- `GET /cart` (`get_cart`): fetch-or-create the cart, enrich its lines,
compute totals, format the response. -/
def getCart (db : DB) (uid : String) (freshId : String) : DB × CartView :=
  let (db', cart) := getOrCreateCart db uid freshId
  let enriched := enrichCartItems db' cart.items
  let totals := calculateCartTotals enriched
  (db', formatCartResponse cart enriched totals)

/-- The `CartSummary` payload of `GET /cart/summary`. -/
structure CartSummaryView where
  item_count : ℤ
  total : ℚ
deriving DecidableEq, Repr

/-- The total-accumulation loop of `get_cart_summary`: add
`price * quantity` for every line whose product document exists (active
or not). -/
def summaryTotal (db : DB) : List CartLine → ℚ
  | [] => 0
  | line :: rest =>
    match db.getProduct line.product_id with
    | some product => product.price * line.quantity + summaryTotal db rest
    | none => summaryTotal db rest

/-- `GET /cart/summary` (`get_cart_summary`): count every line's quantity,
total current prices over lines whose product exists. -/
def getCartSummary (db : DB) (uid : String) (freshId : String) :
    DB × CartSummaryView :=
  let (db', cart) := getOrCreateCart db uid freshId
  let items := cart.items
  ( db'
  , { item_count := (items.map (·.quantity)).sum
      total := round2 (summaryTotal db' items) } )

/-! ## Order routes (`backend/app/routes/orders.py`) -/

/-- The snapshot `build_order_items` appends for a validated line:
price locked at order time, `subtotal = round(price * quantity, 2)`. -/
def snapshotLine (line : CartLine) (product : Product) : OrderItem :=
  { product_id := line.product_id
    product_name := product.name
    product_image := product.image
    price := product.price
    quantity := line.quantity
    subtotal := round2 (product.price * line.quantity) }

/-- `build_order_items`: per line, re-fetch the product; 400 when missing
or inactive, 400 when stock is below the requested quantity, otherwise
snapshot the line with the locked price. -/
def buildOrderItems (db : DB) : List CartLine → Except HTTPError (List OrderItem)
  | [] => .ok []
  | line :: rest =>
    match db.getProduct line.product_id with
    | none =>
      .error ⟨400, "Product " ++ line.product_id ++ " is no longer available"⟩
    | some product =>
      if product.is_active = false then
        .error ⟨400, "Product " ++ line.product_id ++ " is no longer available"⟩
      else if product.stock_quantity < line.quantity then
        .error ⟨400, "Insufficient stock for " ++ product.name ++ ". Only "
                 ++ toString product.stock_quantity ++ " available."⟩
      else
        match buildOrderItems db rest with
        | .error e => .error e
        | .ok items => .ok (snapshotLine line product :: items)

/-- `update_product_stock`: for each order line, re-fetch the product and
clamp-decrement its stock, `new_stock = max(0, stock - qty)`; lines whose
product vanished are skipped. -/
def updateProductStock (db : DB) : List OrderItem → DB
  | [] => db
  | item :: rest =>
    let db' :=
      match db.getProduct item.product_id with
      | some product =>
        db.setStock item.product_id (max 0 (product.stock_quantity - item.quantity))
      | none => db
    updateProductStock db' rest

/-- The stock-restoration loop of `cancel_order`: for each order line,
re-fetch the product and restore unclamped, `new_stock = stock + qty`;
lines whose product vanished are skipped. -/
def restoreProductStock (db : DB) : List OrderItem → DB
  | [] => db
  | item :: rest =>
    let db' :=
      match db.getProduct item.product_id with
      | some product =>
        db.setStock item.product_id (product.stock_quantity + item.quantity)
      | none => db
    restoreProductStock db' rest

/-- The `OrderCreate` request body: address id, payment method, optional
notes, optional explicit item list (the "buy now" path). -/
structure OrderCreateReq where
  address_id : String
  payment_method : PaymentMethod
  notes : Option String
  items : Option (List CartLine)
deriving DecidableEq, Repr

/-- Python truthiness of `order_data.items`: `None` and `[]` are falsy. -/
def OrderCreateReq.itemsTruthy (r : OrderCreateReq) : Bool :=
  match r.items with
  | some (_ :: _) => true
  | _ => false

/-- The `PaymentConfirmation` response body. -/
structure Confirmation where
  success : Bool
  order_id : ℕ
  order_number : String
  transaction_id : String
  payment_method : PaymentMethod
  amount : ℚ
  message : String
deriving DecidableEq, Repr

/-- Step 2 of `create_order`: explicit items when truthy, else the cart
contents; 400 when the cart is missing or empty. -/
def resolveOrderItems (db : DB) (uid : String) (req : OrderCreateReq) :
    Except HTTPError (List CartLine) :=
  if req.itemsTruthy then .ok (req.items.getD [])
  else
    match db.getUserCart uid with
    | none => .error ⟨400, "Cart is empty"⟩
    | some cart =>
      if cart.items = [] then .error ⟨400, "Cart is empty"⟩
      else .ok cart.items

/-- `POST /orders` (`create_order`). `order_number`, `transaction_id` and
`estimated_delivery` are the clock/uuid-derived values of steps 5 and 8,
passed in as parameters. The returned `DB` carries every repository write
the handler performed; on a raised `HTTPException` it is the input store
unchanged, mirroring that the code raises before any write. -/
def createOrder (db : DB) (uid : String) (req : OrderCreateReq)
    (order_number transaction_id estimated_delivery : String) :
    DB × Except HTTPError Confirmation :=
  -- Step 1: shipping address must exist and belong to the user
  match db.getAddress req.address_id with
  | none => (db, .error ⟨400, "Invalid shipping address"⟩)
  | some address =>
    if address.user_id ≠ uid then (db, .error ⟨400, "Invalid shipping address"⟩)
    else
      -- Step 2: resolve source items (buy-now list or cart contents)
      match resolveOrderItems db uid req with
      | .error e => (db, .error e)
      | .ok cart_items =>
        -- Step 3: validate stock and lock prices
        match buildOrderItems db cart_items with
        | .error e => (db, .error e)
        | .ok order_items =>
          if order_items = [] then (db, .error ⟨400, "No valid items in order"⟩)
          else
            -- Step 4: totals
            let subtotal := (order_items.map (·.subtotal)).sum
            let shipping :=
              if subtotal ≥ FREE_SHIPPING_THRESHOLD then 0 else SHIPPING_COST
            let total := round2 (subtotal + shipping)
            -- Step 6: payment status (COD pending, everything else completed)
            let payment_status : PaymentStatus :=
              if req.payment_method = .cod then .pending else .completed
            -- Steps 7-9: assemble the order document
            let order : Order :=
              { order_number := order_number
                user_id := uid
                items := order_items
                shipping_address := snapshotAddress address
                status := .confirmed
                payment_method := req.payment_method
                payment_status := payment_status
                transaction_id := transaction_id
                subtotal := subtotal
                shipping_cost := shipping
                discount := 0
                total := total
                notes := req.notes
                estimated_delivery := estimated_delivery }
            -- Step 10: persist the order
            let (db1, order_id) := db.createOrderDoc order
            -- Step 11: decrement stock
            let db2 := updateProductStock db1 order_items
            -- Step 12: clear the cart unless this was a buy-now order
            let db3 := if req.itemsTruthy then db2 else db2.clearCart uid
            ( db3
            , .ok
                { success := true
                  order_id := order_id
                  order_number := order_number
                  transaction_id := transaction_id
                  payment_method := req.payment_method
                  amount := total
                  message :=
                    if payment_status = .completed then "Order placed successfully!"
                    else "Order placed. Payment will be collected on delivery." } )

/-- `POST /orders/{id}/cancel` (`cancel_order`): 404 unless the order
exists and is owned by the caller, 400 unless its status is PENDING or
CONFIRMED, otherwise set status and payment status to CANCELLED and
restore the stock of every line. -/
def cancelOrder (db : DB) (uid : String) (oid : ℕ) :
    DB × Except HTTPError String :=
  match db.getOrder oid with
  | none => (db, .error ⟨404, "Order not found"⟩)
  | some order =>
    if order.user_id ≠ uid then (db, .error ⟨404, "Order not found"⟩)
    else if order.status ≠ .pending ∧ order.status ≠ .confirmed then
      ( db
      , .error ⟨400, "Cannot cancel order with status: " ++ order.status.toStr⟩ )
    else
      let db1 := db.updateOrder oid fun o =>
        { o with status := .cancelled, payment_status := .cancelled }
      let db2 := restoreProductStock db1 order.items
      (db2, .ok "Order cancelled successfully")

/-! ## Admin order-status route (`backend/app/routes/admin.py`) -/

/-- The note marker written by `update_order_status`:
`f"[{update.status}] {update.notes}"`. -/
def statusTag (s : OrderStatus) (note : String) : String :=
  "[" ++ s.toStr ++ "] " ++ note

/-- The notes value written by `update_order_status` when a (truthy) note
is supplied: append to truthy existing notes separated by a blank line,
else start fresh. -/
def appendNote (existing : Option String) (s : OrderStatus) (note : String) :
    String :=
  match existing with
  | some ex => if ex = "" then statusTag s note else ex ++ "\n\n" ++ statusTag s note
  | none => statusTag s note

/-- `PUT /admin/orders/{id}/status` (`update_order_status`): 404 when the
order is missing; otherwise set the status to the requested value
unconditionally and, when a truthy note was supplied, append it to the
existing notes under a status tag. (`OrderStatusUpdate.status` is a raw
string in the source; its values are modelled by the status enum.) -/
def updateOrderStatus (db : DB) (oid : ℕ) (new_status : OrderStatus)
    (note : Option String) : DB × Except HTTPError Unit :=
  match db.getOrder oid with
  | none => (db, .error ⟨404, "Order not found"⟩)
  | some order =>
    let db' := db.updateOrder oid fun o =>
      let o1 := { o with status := new_status }
      match note with
      | none => o1
      | some n =>
        if n = "" then o1
        else { o1 with notes := some (appendNote order.notes new_status n) }
    (db', .ok ())

/-! ## Derived views used to state the claims -/

/-- A cart line is visible in the cart view iff its product document
exists and is active (the filtering policy of `enrich_cart_items`). -/
def lineVisible (db : DB) (line : CartLine) : Bool :=
  match db.getProduct line.product_id with
  | some p => p.is_active
  | none => false

/-- The enriched row of a visible cart line (total variant of the
`enrich_cart_items` loop body; the `none` branch is never reached on
visible lines). -/
def enrichLineView (db : DB) (line : CartLine) : EnrichedItem :=
  match db.getProduct line.product_id with
  | some p => enrichLine line p
  | none =>
    enrichLine line
      { name := "", price := 0, stock_quantity := 0, is_active := false
        thumbnail := none, images := [] }

/-- Total ordered quantity of one order (sum over its lines). -/
def orderQty (o : Order) : ℤ :=
  (o.items.map (·.quantity)).sum

/-- Total ordered quantity of a list of orders. -/
def qtySum (l : List Order) : ℤ :=
  (l.map orderQty).sum

/-- Whether an order document currently has status CONFIRMED. -/
def isConfirmed (o : Order) : Bool :=
  decide (o.status = OrderStatus.confirmed)

/-- Whether an order document currently has status CANCELLED. -/
def isCancelled (o : Order) : Bool :=
  decide (o.status = OrderStatus.cancelled)

/-- Sum of quantities over the orders whose current status is
CONFIRMED. -/
def confirmedQty (db : DB) : ℤ :=
  qtySum (db.orders.filter isConfirmed)

/-- Sum of quantities over the orders whose current status is
CANCELLED. -/
def cancelledQty (db : DB) : ℤ :=
  qtySum (db.orders.filter isCancelled)

/-- Sum of quantities over every order ever successfully checked out
(orders are never deleted, so this is all orders in the store). -/
def checkedOutQty (db : DB) : ℤ :=
  qtySum db.orders

/-! ## Single-product operation traces (for the stock-conservation claim)

A trace interleaves successful checkouts and cancellations against the
one product `"p"`, driven by user `"u"` shipping to address `"a"`,
executed sequentially through the real `create_order` / `cancel_order`
handlers. -/

/-- The current stock of the traced product `"p"`. -/
def stockOf (db : DB) : ℤ :=
  match db.getProduct "p" with
  | some p => p.stock_quantity
  | none => 0

/-- One sequential operation against product `"p"`: a buy-now checkout
of `qty` units, or a cancellation of order `oid`. -/
inductive StockOp where
  | checkout (qty : ℤ)
  | cancel (oid : ℕ)
deriving DecidableEq, Repr

/-- The buy-now request for `qty` units of product `"p"`. -/
def buyReq (qty : ℤ) : OrderCreateReq :=
  { address_id := "a", payment_method := .cod, notes := none
    items := some [⟨"p", qty⟩] }

/-- Run one operation through the corresponding route handler, keeping
the new store only when the handler succeeded. -/
def runOp (db : DB) : StockOp → Option DB
  | .checkout qty =>
    match createOrder db "u" (buyReq qty) "ON" "TX" "ED" with
    | (db', .ok _) => some db'
    | (_, .error _) => none
  | .cancel oid =>
    match cancelOrder db "u" oid with
    | (db', .ok _) => some db'
    | (_, .error _) => none

/-- Run a sequence of operations; `some` only when every operation
succeeded. -/
def runTrace (db : DB) : List StockOp → Option DB
  | [] => some db
  | op :: rest =>
    match runOp db op with
    | some db' => runTrace db' rest
    | none => none

/-- The inductive invariant of single-product traces: the product
exists, the stock plus the quantities of the still-confirmed orders is
the initial stock, and every order in the store is CONFIRMED or
CANCELLED with exactly one line, on product `"p"`. -/
def traceInv (s : ℤ) (db : DB) : Prop :=
  (∃ p : Product, db.getProduct "p" = some p) ∧
  stockOf db + confirmedQty db = s ∧
  ∀ o ∈ db.orders,
    (o.status = .confirmed ∨ o.status = .cancelled) ∧
    ∃ it : OrderItem, o.items = [it] ∧ it.product_id = "p"

/-! ## Concrete fixtures for witnesses and counterexamples -/

/-- The spec's workhorse product: price 100, stock 5, active. -/
def demoProduct : Product :=
  { name := "P", price := 100, stock_quantity := 5, is_active := true
    thumbnail := none, images := [] }

/-- A saved address owned by user `"u"`. -/
def demoAddress : Address :=
  { user_id := "u", full_name := some "N", phone := some "9"
    address_line1 := some "L1", address_line2 := none, landmark := none
    city := some "C", state := some "S", pincode := some "1", country := none }

/-- A store with `demoProduct` under id `"p"`, a cart for `"u"` holding
`qty` units of it, the address `"a"`, and no orders. -/
def demoDB (qty : ℤ) : DB :=
  { products := [("p", demoProduct)]
    carts := [{ id := "c1", user_id := "u", items := [⟨"p", qty⟩] }]
    addresses := [("a", demoAddress)]
    orders := [] }

/-- A cart-checkout request paying cash on delivery. -/
def codReq : OrderCreateReq :=
  { address_id := "a", payment_method := .cod, notes := none, items := none }

/-- Fixture for the C3 witness: the user's cart asks for 7 units while
only 5 are in stock. -/
def C3db : DB := demoDB 7

/-- Request for the C3 witness. -/
def C3req : OrderCreateReq := codReq

/-- The store at the start of a single-product trace: product `"p"` with
stock `s`, address `"a"` of user `"u"`, no carts, no orders. -/
def traceDB (s : ℤ) : DB :=
  { products := [("p", { demoProduct with stock_quantity := s })]
    carts := []
    addresses := [("a", demoAddress)]
    orders := [] }

/-- The order document produced by checking out the `demoDB 2` cart with
cash on delivery (spec scenario: price 100, quantity 2). -/
def demoOrder : Order :=
  { order_number := "ON", user_id := "u"
    items := [{ product_id := "p", product_name := "P", product_image := none
                price := 100, quantity := 2, subtotal := 200 }]
    shipping_address := snapshotAddress demoAddress
    status := .confirmed, payment_method := .cod, payment_status := .pending
    transaction_id := "TX", subtotal := 200, shipping_cost := 40
    discount := 0, total := 240, notes := none, estimated_delivery := "ED" }

/-- The store after that checkout: stock decremented to 3, the cart
cleared, the order persisted. -/
def demoDBAfter : DB :=
  { products := [("p", { demoProduct with stock_quantity := 3 })]
    carts := [{ id := "c1", user_id := "u", items := [] }]
    addresses := [("a", demoAddress)]
    orders := [demoOrder] }

/-- The payment confirmation of that checkout. -/
def demoConf : Confirmation :=
  { success := true, order_id := 0, order_number := "ON"
    transaction_id := "TX", payment_method := .cod, amount := 240
    message := "Order placed. Payment will be collected on delivery." }

/-- An enriched cart row whose line subtotal is `s` (for exercising the
shipping-threshold boundary). -/
def enrichedAt (s : ℚ) : EnrichedItem :=
  { product_id := "x", product_name := "X", product_image := none
    price := s, quantity := 1, subtotal := s, in_stock := true
    stock_quantity := 1 }

/-- The demo order after it has been shipped (admin moved it forward). -/
def shippedOrder : Order :=
  { demoOrder with status := .shipped }

/-- A store holding the shipped demo order. -/
def shippedDB : DB :=
  { demoDBAfter with orders := [shippedOrder] }

/-- The demo order after user cancellation. -/
def cancelledOrder : Order :=
  { demoOrder with status := .cancelled, payment_status := .cancelled }

/-- The store after cancelling the demo order: stock restored to 5, the
order document cancelled, its items untouched. -/
def demoDBCancelled : DB :=
  { products := [("p", demoProduct)]
    carts := [{ id := "c1", user_id := "u", items := [] }]
    addresses := [("a", demoAddress)]
    orders := [cancelledOrder] }

/-- An inactive catalog product priced 1000. -/
def inactiveProduct : Product :=
  { name := "X", price := 1000, stock_quantity := 1, is_active := false
    thumbnail := none, images := [] }

/-- A cart mixing an active line, an inactive-product line and a
missing-product line (for the view-filtering claim). -/
def mixedCart : Cart :=
  { id := "c8", user_id := "u"
    items := [⟨"p", 1⟩, ⟨"x", 2⟩, ⟨"ghost", 3⟩] }

/-- A store holding the mixed cart, the active product `"p"` and the
inactive product `"x"` (no document for `"ghost"`). -/
def mixedDB : DB :=
  { products := [("p", demoProduct), ("x", inactiveProduct)]
    carts := [mixedCart]
    addresses := []
    orders := [] }

/-- A one-line cart referencing only the inactive product (for the
summary-versus-view claim). -/
def inactiveOnlyDB : DB :=
  { products := [("x", inactiveProduct)]
    carts := [{ id := "c10", user_id := "u", items := [⟨"x", 1⟩] }]
    addresses := []
    orders := [] }

/-- The demo order carrying an existing admin note. -/
def noteOrder : Order :=
  { demoOrder with notes := some "first" }

/-- A store holding `noteOrder`. -/
def noteDB : DB :=
  { demoDBAfter with orders := [noteOrder] }

/-- `noteOrder` after the admin marks it shipped with note `"note"`. -/
def noteOrderShipped : Order :=
  { noteOrder with status := .shipped, notes := some "first\n\n[shipped] note" }

/-- `noteOrder` after the admin moves it backwards to PENDING with note
`"note"` (no transition-legality check stops this). -/
def noteOrderBack : Order :=
  { noteOrder with status := .pending, notes := some "first\n\n[pending] note" }

/-- The order produced by the trace `[checkout 2, cancel 0]` from stock
10: checked out and then cancelled. -/
def traceOrder : Order :=
  { order_number := "ON", user_id := "u"
    items := [{ product_id := "p", product_name := "P", product_image := none
                price := 100, quantity := 2, subtotal := 200 }]
    shipping_address := snapshotAddress demoAddress
    status := .cancelled, payment_method := .cod
    payment_status := .cancelled
    transaction_id := "TX", subtotal := 200, shipping_cost := 40
    discount := 0, total := 240, notes := none, estimated_delivery := "ED" }

/-- The store after running `[checkout 2, cancel 0]` from stock 10: the
stock is restored to 10 and the one order is CANCELLED. -/
def traceFinalDB : DB :=
  { products := [("p", { demoProduct with stock_quantity := 10 })]
    carts := []
    addresses := [("a", demoAddress)]
    orders := [traceOrder] }

/-! ## Helper lemmas -/

/-- Updating the value stored under `pid` changes lookups at `pid` and
nothing else. -/
theorem alookup_mapAt {α : Type} (l : List (String × α)) (pid pid' : String)
    (f : α → α) :
    alookup (l.map fun kv => if kv.1 = pid then (kv.1, f kv.2) else kv) pid' =
      if pid' = pid then (alookup l pid').map f else alookup l pid' := by
  induction l with
  | nil => simp [alookup]
  | cons kv rest ih =>
    obtain ⟨k, v⟩ := kv
    simp only [List.map_cons]
    by_cases hk : k = pid
    · subst hk
      simp only [if_pos rfl]
      by_cases hp : k = pid'
      · subst hp
        simp [alookup, ih]
      · simp [alookup, hp, ih, Ne.symm hp]
    · simp only [if_neg hk]
      by_cases hp : k = pid'
      · subst hp
        simp [alookup, hk]
      · simp [alookup, hp, ih]

/-- `mapProduct` leaves order documents untouched. -/
theorem mapProduct_orders (db : DB) (pid : String) (f : Product → Product) :
    (db.mapProduct pid f).orders = db.orders := rfl

/-- `mapProduct` leaves cart documents untouched. -/
theorem mapProduct_carts (db : DB) (pid : String) (f : Product → Product) :
    (db.mapProduct pid f).carts = db.carts := rfl

/-- `mapProduct` leaves address documents untouched. -/
theorem mapProduct_addresses (db : DB) (pid : String) (f : Product → Product) :
    (db.mapProduct pid f).addresses = db.addresses := rfl

/-- Lookup after a keyed product update. -/
theorem getProduct_mapProduct (db : DB) (pid : String) (f : Product → Product)
    (pid' : String) :
    (db.mapProduct pid f).getProduct pid' =
      if pid' = pid then (db.getProduct pid').map f else db.getProduct pid' :=
  alookup_mapAt db.products pid pid' f

/-- A cart-items write leaves order documents untouched. -/
theorem setCartItems_orders (db : DB) (cid : String) (items : List CartLine) :
    (db.setCartItems cid items).orders = db.orders := rfl

/-- A cart-items write leaves product documents untouched. -/
theorem setCartItems_products (db : DB) (cid : String) (items : List CartLine) :
    (db.setCartItems cid items).products = db.products := rfl

/-- Clearing a cart leaves order documents untouched. -/
theorem clearCart_orders (db : DB) (uid : String) :
    (db.clearCart uid).orders = db.orders := by
  unfold DB.clearCart; split <;> rfl

/-- Clearing a cart leaves product documents untouched. -/
theorem clearCart_products (db : DB) (uid : String) :
    (db.clearCart uid).products = db.products := by
  unfold DB.clearCart; split <;> rfl

/-- An order-document update leaves product documents untouched. -/
theorem updateOrder_products (db : DB) (oid : ℕ) (f : Order → Order) :
    (db.updateOrder oid f).products = db.products := by
  unfold DB.updateOrder; split <;> rfl

/-- An order-document update leaves cart documents untouched. -/
theorem updateOrder_carts (db : DB) (oid : ℕ) (f : Order → Order) :
    (db.updateOrder oid f).carts = db.carts := by
  unfold DB.updateOrder; split <;> rfl

/-- The stock-decrement loop leaves order documents untouched. -/
theorem updateProductStock_orders (items : List OrderItem) :
    ∀ db : DB, (updateProductStock db items).orders = db.orders := by
  induction items with
  | nil => intro db; rfl
  | cons it rest ih =>
    intro db
    unfold updateProductStock
    cases h : db.getProduct it.product_id <;>
      simp only [h] <;> rw [ih] <;> rfl

/-- The stock-restoration loop leaves order documents untouched. -/
theorem restoreProductStock_orders (items : List OrderItem) :
    ∀ db : DB, (restoreProductStock db items).orders = db.orders := by
  induction items with
  | nil => intro db; rfl
  | cons it rest ih =>
    intro db
    unfold restoreProductStock
    cases h : db.getProduct it.product_id <;>
      simp only [h] <;> rw [ih] <;> rfl

/-- The stock-decrement loop does not touch products outside the order's
lines. -/
theorem updateProductStock_getProduct_not_mem (items : List OrderItem) :
    ∀ (db : DB) (pid : String), pid ∉ items.map (·.product_id) →
      (updateProductStock db items).getProduct pid = db.getProduct pid := by
  induction items with
  | nil => intro db pid _; rfl
  | cons it rest ih =>
    intro db pid hpid
    simp only [List.map_cons, List.mem_cons, not_or] at hpid
    unfold updateProductStock
    cases h : db.getProduct it.product_id
    · simpa only [h] using ih db pid hpid.2
    · simp only [h]
      rw [ih _ pid hpid.2, DB.setStock, getProduct_mapProduct,
        if_neg hpid.1]

/-- The stock-restoration loop does not touch products outside the
order's lines. -/
theorem restoreProductStock_getProduct_not_mem (items : List OrderItem) :
    ∀ (db : DB) (pid : String), pid ∉ items.map (·.product_id) →
      (restoreProductStock db items).getProduct pid = db.getProduct pid := by
  induction items with
  | nil => intro db pid _; rfl
  | cons it rest ih =>
    intro db pid hpid
    simp only [List.map_cons, List.mem_cons, not_or] at hpid
    unfold restoreProductStock
    cases h : db.getProduct it.product_id
    · simpa only [h] using ih db pid hpid.2
    · simp only [h]
      rw [ih _ pid hpid.2, DB.setStock, getProduct_mapProduct,
        if_neg hpid.1]

/-- When no product occurs on two lines, the stock-decrement loop maps
each line's product stock to `max 0 (stock - qty)`. -/
theorem updateProductStock_getProduct (items : List OrderItem) :
    ∀ db : DB, (items.map (·.product_id)).Nodup →
      ∀ it ∈ items,
        (updateProductStock db items).getProduct it.product_id =
          (db.getProduct it.product_id).map fun p =>
            { p with stock_quantity := max 0 (p.stock_quantity - it.quantity) } := by
  induction items with
  | nil => intro db _ it hit; cases hit
  | cons a rest ih =>
    intro db hnd it hit
    simp only [List.map_cons, List.nodup_cons] at hnd
    unfold updateProductStock
    rcases List.mem_cons.mp hit with rfl | hmem
    · cases h : db.getProduct it.product_id
      · simp only [h, Option.map_none']
        exact (updateProductStock_getProduct_not_mem rest db it.product_id hnd.1).trans h
      · simp only [h, Option.map_some']
        rw [updateProductStock_getProduct_not_mem rest _ it.product_id hnd.1,
          DB.setStock, getProduct_mapProduct, if_pos rfl, h, Option.map_some']
    · have hne : it.product_id ≠ a.product_id := by
        intro hcontra
        exact hnd.1 (hcontra ▸ List.mem_map_of_mem (·.product_id) hmem)
      cases h : db.getProduct a.product_id
      · simp only [h]
        exact ih db hnd.2 it hmem
      · simp only [h]
        rw [ih _ hnd.2 it hmem, DB.setStock, getProduct_mapProduct, if_neg hne]

/-- When no product occurs on two lines, the stock-restoration loop maps
each line's product stock to `stock + qty` (unclamped). -/
theorem restoreProductStock_getProduct (items : List OrderItem) :
    ∀ db : DB, (items.map (·.product_id)).Nodup →
      ∀ it ∈ items,
        (restoreProductStock db items).getProduct it.product_id =
          (db.getProduct it.product_id).map fun p =>
            { p with stock_quantity := p.stock_quantity + it.quantity } := by
  induction items with
  | nil => intro db _ it hit; cases hit
  | cons a rest ih =>
    intro db hnd it hit
    simp only [List.map_cons, List.nodup_cons] at hnd
    unfold restoreProductStock
    rcases List.mem_cons.mp hit with rfl | hmem
    · cases h : db.getProduct it.product_id
      · simp only [h, Option.map_none']
        exact (restoreProductStock_getProduct_not_mem rest db it.product_id hnd.1).trans h
      · simp only [h, Option.map_some']
        rw [restoreProductStock_getProduct_not_mem rest _ it.product_id hnd.1,
          DB.setStock, getProduct_mapProduct, if_pos rfl, h, Option.map_some']
    · have hne : it.product_id ≠ a.product_id := by
        intro hcontra
        exact hnd.1 (hcontra ▸ List.mem_map_of_mem (·.product_id) hmem)
      cases h : db.getProduct a.product_id
      · simp only [h]
        exact ih db hnd.2 it hmem
      · simp only [h]
        rw [ih _ hnd.2 it hmem, DB.setStock, getProduct_mapProduct, if_neg hne]

/-- Overwriting the document at an existing index makes lookups at that
index return the new document. -/
theorem get?_set_some {α : Type} :
    ∀ (l : List α) (i : ℕ) (a b : α), l.get? i = some a →
      (l.set i b).get? i = some b := by
  intro l
  induction l with
  | nil => intro i a b h; simp at h
  | cons x xs ih =>
    intro i a b h
    cases i with
    | zero => rfl
    | succ n => exact ih n a b h

/-- Reading back an order after a keyed order-document update. -/
theorem getOrder_updateOrder (db : DB) (oid : ℕ) (order : Order)
    (f : Order → Order) (hget : db.getOrder oid = some order) :
    (db.updateOrder oid f).getOrder oid = some (f order) := by
  have hget' : db.orders.get? oid = some order := hget
  unfold DB.updateOrder DB.getOrder
  simp only [hget']
  exact get?_set_some db.orders oid order _ hget'

/-- Every error `build_order_items` raises is an HTTP 400. -/
theorem buildOrderItems_error_code (db : DB) :
    ∀ lines e, buildOrderItems db lines = .error e → e.code = 400 := by
  intro lines
  induction lines with
  | nil => intro e h; simp [buildOrderItems] at h
  | cons line rest ih =>
    intro e h
    unfold buildOrderItems at h
    split at h
    · injection h with h; subst h; rfl
    · split at h
      · injection h with h; subst h; rfl
      · split at h
        · injection h with h; subst h; rfl
        · split at h
          · injection h with h
            subst h
            exact ih _ (by assumption)
          · simp at h

/-- What `build_order_items` guarantees about the snapshots it returns:
product ids follow the input lines, and every snapshot comes from a line
whose product exists, is active, has sufficient stock, and whose current
price/name were copied into the snapshot. -/
theorem buildOrderItems_ok_spec (db : DB) :
    ∀ lines items, buildOrderItems db lines = .ok items →
      items.map (·.product_id) = lines.map (·.product_id) ∧
      ∀ it ∈ items, ∃ line product, line ∈ lines ∧
        db.getProduct line.product_id = some product ∧
        product.is_active = true ∧
        ¬(product.stock_quantity < line.quantity) ∧
        it = snapshotLine line product := by
  intro lines
  induction lines with
  | nil =>
    intro items h
    injection h with h
    subst h
    exact ⟨rfl, by simp⟩
  | cons line rest ih =>
    intro items h
    unfold buildOrderItems at h
    split at h
    · simp at h
    · next product heqP =>
      split at h
      · simp at h
      · next hact =>
        split at h
        · simp at h
        · next hstock =>
          split at h
          · simp at h
          · next items' heqRest =>
            injection h with h
            subst h
            obtain ⟨ihmap, ihmem⟩ := ih items' heqRest
            refine ⟨by simp [ihmap, snapshotLine], ?_⟩
            intro it hit
            rcases List.mem_cons.mp hit with rfl | hmem
            · exact ⟨line, product, List.mem_cons_self .., heqP,
                by revert hact; cases product.is_active <;> simp, hstock, rfl⟩
            · obtain ⟨l, p, hl, hgp, hia, hs, hsnap⟩ := ihmem it hmem
              exact ⟨l, p, List.mem_cons_of_mem _ hl, hgp, hia, hs, hsnap⟩

/-- Success characterization of `create_order`: on a 201 response, the
address resolved and is owned by the caller, the source lines resolved,
every line validated and was snapshotted, and the final store is the
input store with the assembled order appended, stock decremented, and
(for a cart checkout) the cart cleared. -/
theorem createOrder_ok (db : DB) (uid : String) (req : OrderCreateReq)
    (g1 g2 g3 : String) (db' : DB) (conf : Confirmation)
    (h : createOrder db uid req g1 g2 g3 = (db', .ok conf)) :
    ∃ (address : Address) (cart_items : List CartLine)
      (order_items : List OrderItem),
      db.getAddress req.address_id = some address ∧
      address.user_id = uid ∧
      resolveOrderItems db uid req = .ok cart_items ∧
      buildOrderItems db cart_items = .ok order_items ∧
      order_items ≠ [] ∧
      conf =
        { success := true
          order_id := db.orders.length
          order_number := g1
          transaction_id := g2
          payment_method := req.payment_method
          amount := round2 ((order_items.map (·.subtotal)).sum +
            (if (order_items.map (·.subtotal)).sum ≥ FREE_SHIPPING_THRESHOLD
              then 0 else SHIPPING_COST))
          message :=
            if (if req.payment_method = .cod then PaymentStatus.pending
                else PaymentStatus.completed) = PaymentStatus.completed
            then "Order placed successfully!"
            else "Order placed. Payment will be collected on delivery." } ∧
      db' =
        (let order : Order :=
          { order_number := g1
            user_id := uid
            items := order_items
            shipping_address := snapshotAddress address
            status := .confirmed
            payment_method := req.payment_method
            payment_status :=
              if req.payment_method = .cod then .pending else .completed
            transaction_id := g2
            subtotal := (order_items.map (·.subtotal)).sum
            shipping_cost :=
              if (order_items.map (·.subtotal)).sum ≥ FREE_SHIPPING_THRESHOLD
              then 0 else SHIPPING_COST
            discount := 0
            total := round2 ((order_items.map (·.subtotal)).sum +
              (if (order_items.map (·.subtotal)).sum ≥ FREE_SHIPPING_THRESHOLD
                then 0 else SHIPPING_COST))
            notes := req.notes
            estimated_delivery := g3 }
        let db2 :=
          updateProductStock { db with orders := db.orders ++ [order] } order_items
        if req.itemsTruthy then db2 else db2.clearCart uid) := by
  unfold createOrder at h
  split at h
  · simp at h
  · next address heqA =>
    split at h
    · simp at h
    · next huser =>
      split at h
      · simp at h
      · next cart_items heqR =>
        split at h
        · simp at h
        · next order_items heqB =>
          split at h
          · simp at h
          · next hne =>
            injection h with h1 h2
            injection h2 with h2
            exact ⟨address, cart_items, order_items, heqA, not_not.mp huser,
              heqR, heqB, hne, h2.symm, h1.symm⟩

/-- The stock-decrement loop reads and writes only the products
collection, so it acts identically on stores with equal products. -/
theorem updateProductStock_products_congr (items : List OrderItem) :
    ∀ db1 db2 : DB, db1.products = db2.products →
      (updateProductStock db1 items).products =
        (updateProductStock db2 items).products := by
  induction items with
  | nil => intro db1 db2 h; exact h
  | cons it rest ih =>
    intro db1 db2 h
    have hg : db1.getProduct it.product_id = db2.getProduct it.product_id := by
      unfold DB.getProduct; rw [h]
    unfold updateProductStock
    cases hx : db2.getProduct it.product_id
    · simp only [hg, hx]
      exact ih _ _ h
    · simp only [hg, hx]
      exact ih _ _ (by simp [DB.setStock, DB.mapProduct, h])

/-- The shape of a successful checkout, read off the created order
document: its pricing fields, status, payment status, the confirmation
payload, and the final store's orders and products. -/
theorem createOrder_created (db : DB) (uid : String) (req : OrderCreateReq)
    (g1 g2 g3 : String) (db' : DB) (conf : Confirmation)
    (h : createOrder db uid req g1 g2 g3 = (db', .ok conf)) :
    ∃ (cart_items : List CartLine) (order : Order),
      resolveOrderItems db uid req = .ok cart_items ∧
      buildOrderItems db cart_items = .ok order.items ∧
      order.items ≠ [] ∧
      order.status = .confirmed ∧
      order.payment_method = req.payment_method ∧
      order.payment_status =
        (if req.payment_method = .cod then .pending else .completed) ∧
      order.subtotal = (order.items.map (·.subtotal)).sum ∧
      order.shipping_cost =
        (if order.subtotal ≥ FREE_SHIPPING_THRESHOLD then 0 else SHIPPING_COST) ∧
      order.discount = 0 ∧
      order.total = round2 (order.subtotal + order.shipping_cost) ∧
      conf.success = true ∧
      conf.order_id = db.orders.length ∧
      conf.amount = order.total ∧
      db'.orders = db.orders ++ [order] ∧
      db'.getOrder conf.order_id = some order ∧
      ∀ pid, db'.getProduct pid =
        (updateProductStock db order.items).getProduct pid := by
  obtain ⟨address, cart_items, order_items, hA, hU, hR, hB, hne, hconf, hdb⟩ :=
    createOrder_ok db uid req g1 g2 g3 db' conf h
  subst hconf
  subst hdb
  refine ⟨cart_items,
    { order_number := g1
      user_id := uid
      items := order_items
      shipping_address := snapshotAddress address
      status := .confirmed
      payment_method := req.payment_method
      payment_status :=
        if req.payment_method = .cod then .pending else .completed
      transaction_id := g2
      subtotal := (order_items.map (·.subtotal)).sum
      shipping_cost :=
        if (order_items.map (·.subtotal)).sum ≥ FREE_SHIPPING_THRESHOLD
        then 0 else SHIPPING_COST
      discount := 0
      total := round2 ((order_items.map (·.subtotal)).sum +
        (if (order_items.map (·.subtotal)).sum ≥ FREE_SHIPPING_THRESHOLD
          then 0 else SHIPPING_COST))
      notes := req.notes
      estimated_delivery := g3 }, hR, hB, hne, rfl, rfl, rfl, rfl, rfl, rfl,
    rfl, rfl, rfl, rfl, ?_, ?_, ?_⟩
  · by_cases ht : req.itemsTruthy = true
    · simp only [if_pos ht, updateProductStock_orders]
    · simp only [if_neg ht, clearCart_orders, updateProductStock_orders]
  · unfold DB.getOrder
    by_cases ht : req.itemsTruthy = true
    · simp only [if_pos ht, updateProductStock_orders]
      exact List.get?_concat_length ..
    · simp only [if_neg ht, clearCart_orders, updateProductStock_orders]
      exact List.get?_concat_length ..
  · intro pid
    unfold DB.getProduct
    by_cases ht : req.itemsTruthy = true
    · simp only [if_pos ht]
      congr 1
      exact updateProductStock_products_congr order_items _ db rfl
    · simp only [if_neg ht, clearCart_products]
      congr 1
      exact updateProductStock_products_congr order_items _ db rfl

/-- Every error `resolveOrderItems` (step 2 of `create_order`) raises is
an HTTP 400. -/
theorem resolveOrderItems_error_code (db : DB) (uid : String)
    (req : OrderCreateReq) (e : HTTPError)
    (h : resolveOrderItems db uid req = .error e) : e.code = 400 := by
  unfold resolveOrderItems at h
  split at h
  · simp at h
  · split at h
    · injection h with h; subst h; rfl
    · split at h
      · injection h with h; subst h; rfl
      · simp at h

/-- C3 — Checkout validation atomicity: whenever `create_order` raises,
the raised error is an HTTP 400 and the returned store is the input store:
no order document is created, no product stock changes, and no cart
changes. -/
theorem checkout_validation_atomic (db : DB) (uid : String)
    (req : OrderCreateReq) (g1 g2 g3 : String) (db' : DB) (e : HTTPError)
    (h : createOrder db uid req g1 g2 g3 = (db', .error e)) :
    db' = db ∧ e.code = 400 := by
  unfold createOrder at h
  split at h
  · injection h with h1 h2
    injection h2 with h2
    subst h2
    exact ⟨h1.symm, rfl⟩
  · split at h
    · injection h with h1 h2
      injection h2 with h2
      subst h2
      exact ⟨h1.symm, rfl⟩
    · split at h
      · next e' heq =>
        injection h with h1 h2
        injection h2 with h2
        exact ⟨h1.symm, h2 ▸ resolveOrderItems_error_code db uid req e' heq⟩
      · split at h
        · next e' heq =>
          injection h with h1 h2
          injection h2 with h2
          exact ⟨h1.symm, h2 ▸ buildOrderItems_error_code db _ e' heq⟩
        · split at h
          · injection h with h1 h2
            injection h2 with h2
            subst h2
            exact ⟨h1.symm, rfl⟩
          · simp at h

/-- Witness for C3: a checkout of quantity 7 against stock 5 fails with
the insufficient-stock 400 and, by the theorem, persists nothing. -/
theorem checkout_validation_atomic_witness :
    createOrder C3db "u" C3req "ON" "TX" "ED"
        = (C3db, .error ⟨400, "Insufficient stock for P. Only 5 available."⟩) ∧
      (C3db = C3db ∧
        (HTTPError.mk 400 "Insufficient stock for P. Only 5 available.").code = 400) :=
  ⟨by decide, checkout_validation_atomic C3db "u" C3req "ON" "TX" "ED" C3db _ (by decide)⟩

/-- Evaluation of the spec-scenario checkout (price 100, stock 5,
quantity 2, cash on delivery): the resulting store and confirmation. -/
theorem demo_checkout_eval :
    createOrder (demoDB 2) "u" codReq "ON" "TX" "ED"
      = (demoDBAfter, .ok demoConf) := by
  norm_num [createOrder, resolveOrderItems, OrderCreateReq.itemsTruthy,
    buildOrderItems, demoDB, demoProduct, demoAddress, codReq, DB.getAddress,
    DB.getUserCart, alookup, DB.getProduct, snapshotLine, Product.image,
    round2, roundHalfEven, updateProductStock, DB.setStock, DB.mapProduct,
    DB.clearCart, DB.setCartItems, DB.createOrderDoc, snapshotAddress,
    demoDBAfter, demoConf, demoOrder, FREE_SHIPPING_THRESHOLD, SHIPPING_COST,
    List.find?]
  intro hcon
  exact PaymentStatus.noConfusion hcon

/-- C2 — Price lock: after a successful checkout, updating any catalog
product's price leaves the stored order document, hence every snapshot
price, every line subtotal, and the order's subtotal, shipping cost and
total, unchanged; and each snapshot's price was copied from the catalog
at checkout time (the order never rereads the catalog). -/
theorem price_lock (db : DB) (uid : String) (req : OrderCreateReq)
    (g1 g2 g3 : String) (db' : DB) (conf : Confirmation)
    (pid : String) (newPrice : ℚ)
    (h : createOrder db uid req g1 g2 g3 = (db', .ok conf)) :
    (db'.setPrice pid newPrice).getOrder conf.order_id
      = db'.getOrder conf.order_id ∧
    ∃ o : Order, db'.getOrder conf.order_id = some o ∧
      (∀ it ∈ o.items, ∃ p : Product,
        db.getProduct it.product_id = some p ∧ it.price = p.price) ∧
      ((db'.setPrice pid newPrice).getOrder conf.order_id).map
          (fun x => (x.items.map (·.price), x.items.map (·.subtotal),
            x.subtotal, x.shipping_cost, x.total))
        = some (o.items.map (·.price), o.items.map (·.subtotal),
            o.subtotal, o.shipping_cost, o.total) := by
  have hframe : (db'.setPrice pid newPrice).getOrder conf.order_id
      = db'.getOrder conf.order_id := rfl
  obtain ⟨cart_items, order, hR, hB, hne, hst, hpm, hps, hsub, hship, hdisc,
    htot, hcs, hcid, hca, hord, hget, hprodpt⟩ :=
    createOrder_created db uid req g1 g2 g3 db' conf h
  refine ⟨hframe, order, hget, ?_, ?_⟩
  · intro it hit
    obtain ⟨-, hmem⟩ := buildOrderItems_ok_spec db cart_items order.items hB
    obtain ⟨line, p, hl, hgp, -, -, hsnap⟩ := hmem it hit
    subst hsnap
    exact ⟨p, hgp, rfl⟩
  · rw [hframe, hget]
    rfl

/-- Witness for C2: the spec-scenario checkout, followed by repricing
product `"p"` to 999, leaves the stored order untouched. -/
theorem price_lock_witness :
    createOrder (demoDB 2) "u" codReq "ON" "TX" "ED"
        = (demoDBAfter, .ok demoConf) ∧
      ((demoDBAfter.setPrice "p" 999).getOrder demoConf.order_id
          = demoDBAfter.getOrder demoConf.order_id ∧
        ∃ o : Order, demoDBAfter.getOrder demoConf.order_id = some o ∧
          (∀ it ∈ o.items, ∃ p : Product,
            (demoDB 2).getProduct it.product_id = some p ∧ it.price = p.price) ∧
          ((demoDBAfter.setPrice "p" 999).getOrder demoConf.order_id).map
              (fun x => (x.items.map (·.price), x.items.map (·.subtotal),
                x.subtotal, x.shipping_cost, x.total))
            = some (o.items.map (·.price), o.items.map (·.subtotal),
                o.subtotal, o.shipping_cost, o.total)) :=
  ⟨demo_checkout_eval,
    price_lock (demoDB 2) "u" codReq "ON" "TX" "ED" demoDBAfter demoConf
      "p" 999 demo_checkout_eval⟩

/-- C4 — Checkout success postcondition: a successful checkout persists
one CONFIRMED order whose snapshots carry the catalog price at checkout
time with `subtotal = round(price * qty, 2)`, whose subtotal is the sum
of the line subtotals, whose shipping follows the 500-threshold rule,
whose discount is 0 and total is `round(subtotal + shipping, 2)`, whose
payment status is PENDING exactly for cash on delivery, and each line's
product stock is decremented by the line quantity, clamped at zero. -/
theorem checkout_success_postcondition (db : DB) (uid : String)
    (req : OrderCreateReq) (g1 g2 g3 : String) (db' : DB)
    (conf : Confirmation) (cart_items : List CartLine)
    (hres : resolveOrderItems db uid req = .ok cart_items)
    (hnd : (cart_items.map (·.product_id)).Nodup)
    (h : createOrder db uid req g1 g2 g3 = (db', .ok conf)) :
    ∃ order : Order,
      db'.orders = db.orders ++ [order] ∧
      order.status = .confirmed ∧
      (order.payment_status = .pending ↔ req.payment_method = .cod) ∧
      (order.payment_status = .pending ∨ order.payment_status = .completed) ∧
      (∀ it ∈ order.items, ∃ p : Product,
        db.getProduct it.product_id = some p ∧ it.price = p.price ∧
        it.quantity ≤ p.stock_quantity ∧
        it.subtotal = round2 (it.price * it.quantity)) ∧
      order.subtotal = (order.items.map (·.subtotal)).sum ∧
      order.shipping_cost =
        (if order.subtotal ≥ FREE_SHIPPING_THRESHOLD then 0 else SHIPPING_COST) ∧
      order.discount = 0 ∧
      order.total = round2 (order.subtotal + order.shipping_cost) ∧
      conf.amount = order.total ∧
      ∀ it ∈ order.items,
        db'.getProduct it.product_id =
          (db.getProduct it.product_id).map fun p =>
            { p with stock_quantity := max 0 (p.stock_quantity - it.quantity) } := by
  obtain ⟨ci, order, hR, hB, hne, hst, hpm, hps, hsub, hship, hdisc,
    htot, hcs, hcid, hca, hord, hget, hprodpt⟩ :=
    createOrder_created db uid req g1 g2 g3 db' conf h
  have hci : ci = cart_items := by
    rw [hres] at hR
    exact (Except.ok.inj hR).symm
  subst hci
  obtain ⟨hmap, hmem⟩ := buildOrderItems_ok_spec db ci order.items hB
  have hndo : (order.items.map (·.product_id)).Nodup := hmap ▸ hnd
  refine ⟨order, hord, hst, ?_, ?_, ?_, hsub, hship, hdisc, htot, hca, ?_⟩
  · constructor
    · intro hpend
      by_contra hne'
      rw [hps, if_neg hne'] at hpend
      exact PaymentStatus.noConfusion hpend
    · intro hcod
      rw [hps, if_pos hcod]
  · rcases hcod : req.payment_method with _ | _ | _ | _ | _ <;>
      rw [hps] <;> simp [hcod]
  · intro it hit
    obtain ⟨line, p, hl, hgp, -, hsck, hsnap⟩ := hmem it hit
    subst hsnap
    exact ⟨p, hgp, rfl, le_of_not_lt hsck, rfl⟩
  · intro it hit
    rw [hprodpt it.product_id]
    exact updateProductStock_getProduct order.items db hndo it hit

/-- Witness for C4: the spec scenario — price 100, stock 5, quantity 2,
cash on delivery — yields subtotal 200, shipping 40, total 240, payment
status PENDING, stock 3. -/
theorem checkout_success_postcondition_witness :
    resolveOrderItems (demoDB 2) "u" codReq = .ok [⟨"p", 2⟩] ∧
      (([⟨"p", 2⟩] : List CartLine).map (·.product_id)).Nodup ∧
      createOrder (demoDB 2) "u" codReq "ON" "TX" "ED"
        = (demoDBAfter, .ok demoConf) ∧
      (∃ order : Order,
        demoDBAfter.orders = (demoDB 2).orders ++ [order] ∧
        order.status = .confirmed ∧
        (order.payment_status = .pending ↔ codReq.payment_method = .cod) ∧
        (order.payment_status = .pending ∨ order.payment_status = .completed) ∧
        (∀ it ∈ order.items, ∃ p : Product,
          (demoDB 2).getProduct it.product_id = some p ∧ it.price = p.price ∧
          it.quantity ≤ p.stock_quantity ∧
          it.subtotal = round2 (it.price * it.quantity)) ∧
        order.subtotal = (order.items.map (·.subtotal)).sum ∧
        order.shipping_cost =
          (if order.subtotal ≥ FREE_SHIPPING_THRESHOLD then 0 else SHIPPING_COST) ∧
        order.discount = 0 ∧
        order.total = round2 (order.subtotal + order.shipping_cost) ∧
        demoConf.amount = order.total ∧
        ∀ it ∈ order.items,
          demoDBAfter.getProduct it.product_id =
            ((demoDB 2).getProduct it.product_id).map fun p =>
              { p with stock_quantity := max 0 (p.stock_quantity - it.quantity) }) ∧
      demoOrder.subtotal = 200 ∧ demoOrder.shipping_cost = 40 ∧
      demoOrder.total = 240 ∧ demoOrder.payment_status = .pending ∧
      (demoDBAfter.getProduct "p").map (·.stock_quantity) = some 3 :=
  ⟨by decide, by decide, demo_checkout_eval,
    checkout_success_postcondition (demoDB 2) "u" codReq "ON" "TX" "ED"
      demoDBAfter demoConf [⟨"p", 2⟩] (by decide) (by decide) demo_checkout_eval,
    by decide, by decide, by decide, by decide, by decide⟩

/-- C7 — Shipping threshold boundary: in the cart totals and in the
checkout pipeline alike, a subtotal equal to the 500 threshold ships
free, and a subtotal strictly below it ships at the flat 40. -/
theorem shipping_threshold_boundary :
    (∀ items : List EnrichedItem,
      sumSubtotals items = FREE_SHIPPING_THRESHOLD →
        (calculateCartTotals items).shipping = 0) ∧
    (∀ items : List EnrichedItem,
      sumSubtotals items < FREE_SHIPPING_THRESHOLD →
        (calculateCartTotals items).shipping = SHIPPING_COST) ∧
    (∀ (db : DB) (uid : String) (req : OrderCreateReq) (g1 g2 g3 : String)
        (db' : DB) (conf : Confirmation) (order : Order),
      createOrder db uid req g1 g2 g3 = (db', .ok conf) →
      db'.orders = db.orders ++ [order] →
        (order.subtotal = FREE_SHIPPING_THRESHOLD → order.shipping_cost = 0) ∧
        (order.subtotal < FREE_SHIPPING_THRESHOLD →
          order.shipping_cost = SHIPPING_COST)) := by
  refine ⟨?_, ?_, ?_⟩
  · intro items hsum
    simp [calculateCartTotals, hsum]
  · intro items hsum
    simp [calculateCartTotals, if_neg (not_le.mpr hsum)]
  · intro db uid req g1 g2 g3 db' conf order h hord
    obtain ⟨ci, order', -, -, -, -, -, -, -, hship, -, -, -, -, -, hord', -, -⟩ :=
      createOrder_created db uid req g1 g2 g3 db' conf h
    rw [hord] at hord'
    obtain rfl : order = order' :=
      (List.cons.inj (List.append_cancel_left hord')).1
    constructor
    · intro h500
      rw [hship, if_pos h500.ge]
    · intro hlt
      rw [hship, if_neg (not_le.mpr hlt)]

/-- Witness for C7: a one-line cart with subtotal exactly 500 ships
free, one with subtotal 499.99 pays 40; the spec-scenario order
(subtotal 200 < 500) pays the flat 40. -/
theorem shipping_threshold_boundary_witness :
    (calculateCartTotals [enrichedAt 500]).shipping = 0 ∧
    (calculateCartTotals [enrichedAt (49999/100)]).shipping = SHIPPING_COST ∧
    demoOrder.shipping_cost = SHIPPING_COST :=
  ⟨shipping_threshold_boundary.1 [enrichedAt 500]
      (by norm_num [sumSubtotals, enrichedAt, FREE_SHIPPING_THRESHOLD]),
    shipping_threshold_boundary.2.1 [enrichedAt (49999/100)]
      (by norm_num [sumSubtotals, enrichedAt, FREE_SHIPPING_THRESHOLD]),
    (shipping_threshold_boundary.2.2 (demoDB 2) "u" codReq "ON" "TX" "ED"
        demoDBAfter demoConf demoOrder demo_checkout_eval rfl).2
      (by norm_num [demoOrder, FREE_SHIPPING_THRESHOLD])⟩

/-- C5 — Cancellation legality: a user cancel of an owned order whose
status is neither PENDING nor CONFIRMED returns the 400 business-rule
error and leaves the entire store — the order's status, payment status
and items, and every product's stock — exactly as it was. -/
theorem cancel_illegal_rejected (db : DB) (uid : String) (oid : ℕ)
    (order : Order)
    (hget : db.getOrder oid = some order)
    (hu : order.user_id = uid)
    (hst : order.status ≠ .pending ∧ order.status ≠ .confirmed) :
    cancelOrder db uid oid =
      (db, .error ⟨400, "Cannot cancel order with status: "
        ++ order.status.toStr⟩) := by
  unfold cancelOrder
  simp only [hget]
  rw [if_neg (not_not_intro hu), if_pos hst]

/-- Witness for C5: cancelling the shipped demo order fails with the 400
error and changes nothing. -/
theorem cancel_illegal_rejected_witness :
    shippedDB.getOrder 0 = some shippedOrder ∧
      shippedOrder.user_id = "u" ∧
      (shippedOrder.status ≠ .pending ∧ shippedOrder.status ≠ .confirmed) ∧
      cancelOrder shippedDB "u" 0 =
        (shippedDB, .error ⟨400, "Cannot cancel order with status: "
          ++ shippedOrder.status.toStr⟩) ∧
      (cancelOrder shippedDB "u" 0).1.getProduct "p" =
        some { demoProduct with stock_quantity := 3 } :=
  ⟨by decide, by decide, by decide,
    cancel_illegal_rejected shippedDB "u" 0 shippedOrder
      (by decide) (by decide) (by decide),
    by decide⟩

/-- C6 — Cancellation effect: a user cancel of an owned PENDING or
CONFIRMED order succeeds; the stored order document becomes the same
document with status CANCELLED and payment status CANCELLED (items
untouched), and every line's product stock is restored unclamped to
`stock + qty`. -/
theorem cancel_success_effect (db : DB) (uid : String) (oid : ℕ)
    (order : Order)
    (hget : db.getOrder oid = some order)
    (hu : order.user_id = uid)
    (hst : order.status = .pending ∨ order.status = .confirmed)
    (hnd : (order.items.map (·.product_id)).Nodup) :
    ∃ db', cancelOrder db uid oid = (db', .ok "Order cancelled successfully") ∧
      db'.getOrder oid =
        some { order with status := .cancelled, payment_status := .cancelled } ∧
      ∀ it ∈ order.items,
        db'.getProduct it.product_id =
          (db.getProduct it.product_id).map fun p =>
            { p with stock_quantity := p.stock_quantity + it.quantity } := by
  have hcond : ¬(order.status ≠ .pending ∧ order.status ≠ .confirmed) := by
    rcases hst with h | h <;> simp [h]
  have hget' : db.orders.get? oid = some order := hget
  unfold cancelOrder
  simp only [hget]
  rw [if_neg (not_not_intro hu), if_neg hcond]
  refine ⟨_, rfl, ?_, ?_⟩
  · unfold DB.getOrder
    rw [restoreProductStock_orders]
    unfold DB.updateOrder
    simp only [hget']
    exact get?_set_some db.orders oid order _ hget'
  · intro it hit
    rw [restoreProductStock_getProduct order.items _ hnd it hit]
    have hp : (db.updateOrder oid fun o =>
        { o with status := .cancelled,
                 payment_status := .cancelled }).getProduct it.product_id
        = db.getProduct it.product_id := by
      unfold DB.getProduct
      rw [updateOrder_products]
    rw [hp]

/-- Witness for C6: cancelling the demo CONFIRMED order yields status
CANCELLED, payment status CANCELLED, items unchanged, and stock
restored from 3 back to 5. -/
theorem cancel_success_effect_witness :
    demoDBAfter.getOrder 0 = some demoOrder ∧
      demoOrder.user_id = "u" ∧
      (demoOrder.status = .pending ∨ demoOrder.status = .confirmed) ∧
      ((demoOrder.items.map (·.product_id)).Nodup) ∧
      (∃ db', cancelOrder demoDBAfter "u" 0
          = (db', .ok "Order cancelled successfully") ∧
        db'.getOrder 0 = some cancelledOrder ∧
        ∀ it ∈ demoOrder.items,
          db'.getProduct it.product_id =
            (demoDBAfter.getProduct it.product_id).map fun p =>
              { p with stock_quantity := p.stock_quantity + it.quantity }) ∧
      cancelOrder demoDBAfter "u" 0
        = (demoDBCancelled, .ok "Order cancelled successfully") ∧
      demoDBCancelled.getProduct "p" = some demoProduct ∧
      cancelledOrder.items = demoOrder.items :=
  ⟨by decide, by decide, by decide, by decide,
    cancel_success_effect demoDBAfter "u" 0 demoOrder
      (by decide) (by decide) (by decide) (by decide),
    by decide, by decide, by decide⟩

/-- `enrich_cart_items` is exactly filter-then-join: it keeps the lines
whose product exists and is active, in order, and joins each with its
product data. -/
theorem enrichCartItems_eq (db : DB) :
    ∀ items : List CartLine,
      enrichCartItems db items =
        (items.filter (lineVisible db)).map (enrichLineView db) := by
  intro items
  induction items with
  | nil => rfl
  | cons line rest ih =>
    unfold enrichCartItems
    cases h : db.getProduct line.product_id with
    | none => simp [List.filter_cons, lineVisible, h, ih]
    | some p =>
      cases hact : p.is_active
      · simp [List.filter_cons, lineVisible, h, hact, ih]
      · simp [List.filter_cons, lineVisible, enrichLineView, h, hact, ih]

/-- Every row of the enriched cart view comes from an existing, active
product. -/
theorem enrichCartItems_active (db : DB) :
    ∀ items e, e ∈ enrichCartItems db items →
      ∃ p, db.getProduct e.product_id = some p ∧ p.is_active = true := by
  intro items
  induction items with
  | nil => intro e he; simp [enrichCartItems] at he
  | cons line rest ih =>
    intro e he
    unfold enrichCartItems at he
    cases h : db.getProduct line.product_id with
    | none =>
      simp only [h] at he
      exact ih e he
    | some p =>
      simp only [h] at he
      cases hact : p.is_active
      · rw [hact] at he
        simp only [Bool.false_eq_true, if_false] at he
        exact ih e he
      · rw [hact] at he
        simp only [if_true] at he
        rcases List.mem_cons.mp he with rfl | hmem
        · exact ⟨p, h, hact⟩
        · exact ih e hmem

/-- C8 — Cart view filtering without side effects: when the user already
has a cart, `GET /cart` leaves the store (in particular the persisted
cart lines) untouched, and the returned rows are exactly the cart lines
whose product exists and is active, joined with live product data. -/
theorem cart_view_filtering (db : DB) (uid freshId : String) (cart : Cart)
    (hc : db.getUserCart uid = some cart) :
    (getCart db uid freshId).1 = db ∧
    (getCart db uid freshId).2.items =
      (cart.items.filter (lineVisible db)).map (enrichLineView db) := by
  have h1 : (getCart db uid freshId).1 = db := by
    unfold getCart getOrCreateCart
    rw [hc]
  have h2 : (getCart db uid freshId).2.items
      = (cart.items.filter (lineVisible db)).map (enrichLineView db) := by
    unfold getCart getOrCreateCart
    rw [hc]
    exact enrichCartItems_eq db cart.items
  exact ⟨h1, h2⟩

/-- Witness for C8: in the mixed store, the view keeps only the active
line `"p"`, drops the inactive `"x"` and missing `"ghost"` lines without
an error, and the persisted cart still holds all three lines. -/
theorem cart_view_filtering_witness :
    mixedDB.getUserCart "u" = some mixedCart ∧
      ((getCart mixedDB "u" "f").1 = mixedDB ∧
        (getCart mixedDB "u" "f").2.items =
          (mixedCart.items.filter (lineVisible mixedDB)).map
            (enrichLineView mixedDB)) ∧
      ((mixedCart.items.filter (lineVisible mixedDB)).map
          (enrichLineView mixedDB)).map (·.product_id) = ["p"] ∧
      ((getCart mixedDB "u" "f").1.getUserCart "u").map (·.items)
        = some [⟨"p", 1⟩, ⟨"x", 2⟩, ⟨"ghost", 3⟩] :=
  ⟨by decide,
    cart_view_filtering mixedDB "u" "f" mixedCart (by decide),
    by decide, by decide⟩

/-- A cart line with an existing product contributes exactly
`price * quantity` to the summary total. -/
theorem summaryTotal_erase (db : DB) (line : CartLine) (p : Product)
    (hp : db.getProduct line.product_id = some p) :
    ∀ items : List CartLine, line ∈ items →
      summaryTotal db items
        = p.price * line.quantity + summaryTotal db (items.erase line) := by
  intro items
  induction items with
  | nil => intro h; cases h
  | cons a rest ih =>
    intro hmem
    rw [List.erase_cons]
    simp only [beq_iff_eq]
    by_cases ha : a = line
    · subst ha
      rw [if_pos rfl]
      conv_lhs => unfold summaryTotal
      rw [hp]
    · rw [if_neg ha]
      have hmem' : line ∈ rest := by
        rcases List.mem_cons.mp hmem with h | h
        · exact absurd h.symm ha
        · exact h
      unfold summaryTotal
      cases hga : db.getProduct a.product_id
      · exact ih hmem'
      · rw [ih hmem']
        ring

/-- C10 — Summary versus view on inactive products: `GET /cart/summary`
counts an inactive-product line's quantity in `item_count` and adds its
current `price * quantity` to the total (only missing products are
excluded from the total), while `GET /cart` omits the line entirely; on
the one-line inactive cart the summary total strictly exceeds the cart
view's total. -/
theorem summary_vs_view_inactive :
    (∀ (db : DB) (uid freshId : String) (cart : Cart) (line : CartLine)
        (p : Product),
      db.getUserCart uid = some cart → line ∈ cart.items →
      db.getProduct line.product_id = some p → p.is_active = false →
        (getCartSummary db uid freshId).2.item_count
            = (cart.items.map (·.quantity)).sum ∧
        (getCartSummary db uid freshId).2.total
            = round2 (summaryTotal db cart.items) ∧
        summaryTotal db cart.items
            = p.price * line.quantity + summaryTotal db (cart.items.erase line) ∧
        ∀ e ∈ (getCart db uid freshId).2.items,
          e.product_id ≠ line.product_id) ∧
    (getCartSummary inactiveOnlyDB "u" "f").2.total
      > (getCart inactiveOnlyDB "u" "f").2.total := by
  constructor
  · intro db uid freshId cart line p hc hmem hp hact
    have hcount : (getCartSummary db uid freshId).2.item_count
        = (cart.items.map (·.quantity)).sum := by
      unfold getCartSummary getOrCreateCart
      rw [hc]
    have htotal : (getCartSummary db uid freshId).2.total
        = round2 (summaryTotal db cart.items) := by
      unfold getCartSummary getOrCreateCart
      rw [hc]
    refine ⟨hcount, htotal, summaryTotal_erase db line p hp cart.items hmem, ?_⟩
    intro e he hid
    have hview : (getCart db uid freshId).2.items
        = enrichCartItems db cart.items := by
      unfold getCart getOrCreateCart
      rw [hc]
      rfl
    rw [hview] at he
    obtain ⟨q, hq, hqa⟩ := enrichCartItems_active db cart.items e he
    rw [hid, hp] at hq
    injection hq with hq
    rw [hq, hqa] at hact
    exact Bool.noConfusion hact
  · norm_num [getCartSummary, getCart, getOrCreateCart, inactiveOnlyDB,
      DB.getUserCart, List.find?, summaryTotal, DB.getProduct, alookup,
      inactiveProduct, enrichCartItems, calculateCartTotals,
      formatCartResponse, sumSubtotals, round2, roundHalfEven,
      FREE_SHIPPING_THRESHOLD, SHIPPING_COST]

/-- Witness for C10: on the one-line inactive cart, the summary counts
quantity 1 and total 1000 while the view shows no items and total 40. -/
theorem summary_vs_view_inactive_witness :
    inactiveOnlyDB.getUserCart "u"
        = some { id := "c10", user_id := "u", items := [⟨"x", 1⟩] } ∧
      (⟨"x", 1⟩ : CartLine) ∈
        ({ id := "c10", user_id := "u", items := [⟨"x", 1⟩] } : Cart).items ∧
      inactiveOnlyDB.getProduct "x" = some inactiveProduct ∧
      inactiveProduct.is_active = false ∧
      ((getCartSummary inactiveOnlyDB "u" "f").2.item_count
          = (({ id := "c10", user_id := "u", items := [⟨"x", 1⟩] } : Cart).items.map
              (·.quantity)).sum ∧
        (getCartSummary inactiveOnlyDB "u" "f").2.total
          = round2 (summaryTotal inactiveOnlyDB
              ({ id := "c10", user_id := "u", items := [⟨"x", 1⟩] } : Cart).items) ∧
        summaryTotal inactiveOnlyDB
            ({ id := "c10", user_id := "u", items := [⟨"x", 1⟩] } : Cart).items
          = inactiveProduct.price * (⟨"x", 1⟩ : CartLine).quantity
            + summaryTotal inactiveOnlyDB
                (({ id := "c10", user_id := "u", items := [⟨"x", 1⟩] } : Cart).items.erase
                  ⟨"x", 1⟩) ∧
        ∀ e ∈ (getCart inactiveOnlyDB "u" "f").2.items,
          e.product_id ≠ (⟨"x", 1⟩ : CartLine).product_id) ∧
      (getCartSummary inactiveOnlyDB "u" "f").2.item_count = 1 ∧
      (getCartSummary inactiveOnlyDB "u" "f").2.total = 1000 ∧
      (getCart inactiveOnlyDB "u" "f").2.total = 40 ∧
      (getCart inactiveOnlyDB "u" "f").2.items = [] :=
  ⟨by decide, by decide, by decide, by decide,
    summary_vs_view_inactive.1 inactiveOnlyDB "u" "f"
      { id := "c10", user_id := "u", items := [⟨"x", 1⟩] } ⟨"x", 1⟩
      inactiveProduct (by decide) (by decide) (by decide) (by decide),
    by decide,
    by norm_num [getCartSummary, getOrCreateCart, inactiveOnlyDB,
      DB.getUserCart, List.find?, summaryTotal, DB.getProduct, alookup,
      inactiveProduct, round2, roundHalfEven],
    by norm_num [getCart, getOrCreateCart, inactiveOnlyDB, DB.getUserCart,
      List.find?, DB.getProduct, alookup, inactiveProduct, enrichCartItems,
      calculateCartTotals, formatCartResponse, sumSubtotals, round2,
      roundHalfEven, FREE_SHIPPING_THRESHOLD, SHIPPING_COST],
    by decide⟩

/-- C9 (amended) — Admin status update: for any existing order, the
admin update sets the status to the requested value with no
transition-legality check (no hypothesis restricts the old or new
status); a truthy supplied note is appended to the existing notes under
the status-tagged marker `[status] note` — prior notes are preserved,
never overwritten — while an absent or empty note leaves the notes
untouched; items, payment status and totals are unchanged. -/
theorem admin_status_update (db : DB) (oid : ℕ) (order : Order)
    (new_status : OrderStatus) (note : Option String)
    (hget : db.getOrder oid = some order) :
    ∃ db', updateOrderStatus db oid new_status note = (db', .ok ()) ∧
      ∃ o', db'.getOrder oid = some o' ∧
        o'.status = new_status ∧
        ((note = none ∨ note = some "") → o'.notes = order.notes) ∧
        (∀ n, note = some n → n ≠ "" →
          o'.notes = some (appendNote order.notes new_status n)) ∧
        o'.items = order.items ∧
        o'.payment_status = order.payment_status ∧
        o'.subtotal = order.subtotal ∧
        o'.total = order.total := by
  unfold updateOrderStatus
  simp only [hget]
  refine ⟨_, rfl, ?_⟩
  rw [getOrder_updateOrder db oid order _ hget]
  cases note with
  | none =>
    exact ⟨_, rfl, rfl, fun _ => rfl,
      fun n hn => absurd hn (by simp), rfl, rfl, rfl, rfl⟩
  | some n =>
    by_cases hn : n = ""
    · subst hn
      refine ⟨_, rfl, rfl, fun _ => rfl, ?_, rfl, rfl, rfl, rfl⟩
      intro n' hn' hne
      injection hn' with h
      exact absurd h.symm hne
    · refine ⟨{ order with
          status := new_status
          notes := some (appendNote order.notes new_status n) }, ?_, rfl,
          ?_, ?_, rfl, rfl, rfl, rfl⟩
      · congr 1
        show (if n = "" then { order with status := new_status }
            else { order with
              status := new_status
              notes := some (appendNote order.notes new_status n) })
          = { order with
              status := new_status
              notes := some (appendNote order.notes new_status n) }
        exact if_neg hn
      · intro hcon
        rcases hcon with h | h
        · exact Option.noConfusion h
        · injection h with h
          exact absurd h hn
      · intro n' hn' _
        injection hn' with h
        subst h
        rfl

/-- Counterexample for C9 as stated: the concatenated marker is
`[shipped] note` — it carries the status tag but no timestamp (the
resulting notes contain no digit at all, which any timestamp rendering
would). -/
theorem admin_note_marker_counterexample :
    (updateOrderStatus noteDB 0 .shipped (some "note")).1.getOrder 0
        = some noteOrderShipped ∧
      noteOrderShipped.notes = some "first\n\n[shipped] note" ∧
      appendNote (some "first") .shipped "note" = "first\n\n[shipped] note" ∧
      "first\n\n[shipped] note".toList.all (fun c => !c.isDigit) = true := by
  refine ⟨by decide, by decide, by decide, by decide⟩

/-- Witness for C9: the admin moves the CONFIRMED demo order backwards
to PENDING (legal — no transition check) and the note is appended after
the prior notes. -/
theorem admin_status_update_witness :
    noteDB.getOrder 0 = some noteOrder ∧
      (∃ db', updateOrderStatus noteDB 0 .pending (some "note")
          = (db', .ok ()) ∧
        ∃ o', db'.getOrder 0 = some o' ∧
          o'.status = .pending ∧
          ((some "note" = none ∨ some "note" = some "") →
            o'.notes = noteOrder.notes) ∧
          (∀ n, some "note" = some n → n ≠ "" →
            o'.notes = some (appendNote noteOrder.notes .pending n)) ∧
          o'.items = noteOrder.items ∧
          o'.payment_status = noteOrder.payment_status ∧
          o'.subtotal = noteOrder.subtotal ∧
          o'.total = noteOrder.total) ∧
      (updateOrderStatus noteDB 0 .pending (some "note")).1.getOrder 0
        = some noteOrderBack :=
  ⟨by decide,
    admin_status_update noteDB 0 noteOrder .pending (some "note") (by decide),
    by decide⟩

/-- Quantity sum over a cons. -/
theorem qtySum_cons (o : Order) (l : List Order) :
    qtySum (o :: l) = orderQty o + qtySum l := by
  simp [qtySum]

/-- Quantity sum over an append. -/
theorem qtySum_append (l1 l2 : List Order) :
    qtySum (l1 ++ l2) = qtySum l1 + qtySum l2 := by
  simp [qtySum]

/-- When every order is CONFIRMED or CANCELLED, total quantity splits
into the confirmed and the cancelled share. -/
theorem qtySum_split :
    ∀ l : List Order,
      (∀ o ∈ l, o.status = .confirmed ∨ o.status = .cancelled) →
        qtySum l
          = qtySum (l.filter isConfirmed) + qtySum (l.filter isCancelled) := by
  intro l
  induction l with
  | nil => intro _; simp [qtySum]
  | cons o rest ih =>
    intro h
    have hrest := fun o' ho' => h o' (List.mem_cons_of_mem _ ho')
    rcases h o (List.mem_cons_self ..) with hst | hst
    · have h1 : isConfirmed o = true := by simp [isConfirmed, hst]
      have h2 : isCancelled o = false := by simp [isCancelled, hst]
      simp only [List.filter_cons, h1, h2, if_true, if_false,
        Bool.false_eq_true, qtySum_cons, ih hrest]
      ring
    · have h1 : isConfirmed o = false := by simp [isConfirmed, hst]
      have h2 : isCancelled o = true := by simp [isCancelled, hst]
      simp only [List.filter_cons, h1, h2, if_true, if_false,
        Bool.false_eq_true, qtySum_cons, ih hrest]
      ring

/-- Cancelling the confirmed order at index `i` removes exactly its
quantity from the confirmed share. -/
theorem qtySumConfirmed_set_cancelled :
    ∀ (l : List Order) (i : ℕ) (o : Order),
      l.get? i = some o → o.status = .confirmed →
        qtySum ((l.set i { o with
            status := .cancelled
            payment_status := .cancelled }).filter isConfirmed)
          = qtySum (l.filter isConfirmed) - orderQty o := by
  intro l
  induction l with
  | nil => intro i o h; simp at h
  | cons a rest ih =>
    intro i o hget hst
    cases i with
    | zero =>
      injection hget with hget
      subst hget
      have h1 : isConfirmed a = true := by simp [isConfirmed, hst]
      have h2 : isConfirmed { a with status := OrderStatus.cancelled, payment_status := PaymentStatus.cancelled } = false := by simp [isConfirmed]
      simp only [List.set_cons_zero, List.filter_cons, h1, h2, if_true,
        if_false, Bool.false_eq_true, qtySum_cons]
      ring
    | succ n =>
      have hget' : rest.get? n = some o := hget
      cases ha : isConfirmed a
      · simp only [List.set_cons_succ, List.filter_cons, ha,
          Bool.false_eq_true, if_false]
        exact ih n o hget' hst
      · simp only [List.set_cons_succ, List.filter_cons, ha, if_true,
          qtySum_cons, ih n o hget' hst]
        ring

/-- The decrement loop on a single line whose product exists. -/
theorem updateStock_single (db : DB) (it : OrderItem) (p : Product)
    (hp : db.getProduct it.product_id = some p) :
    updateProductStock db [it]
      = db.setStock it.product_id (max 0 (p.stock_quantity - it.quantity)) := by
  unfold updateProductStock
  rw [hp]
  rfl

/-- The restore loop on a single line whose product exists. -/
theorem restore_single (db : DB) (it : OrderItem) (p : Product)
    (hp : db.getProduct it.product_id = some p) :
    restoreProductStock db [it]
      = db.setStock it.product_id (p.stock_quantity + it.quantity) := by
  unfold restoreProductStock
  rw [hp]
  rfl

/-- A successful checkout step preserves the trace invariant. -/
theorem runOp_checkout_inv (s₀ qty : ℤ) (db db' : DB)
    (hinv : traceInv s₀ db) (h : runOp db (.checkout qty) = some db') :
    traceInv s₀ db' := by
  obtain ⟨⟨p, hp⟩, hsum, hshape⟩ := hinv
  simp only [runOp] at h
  split at h
  · next db2 c heq =>
    injection h with h
    subst h
    obtain ⟨ci, order, hR, hB, hne, hst, hpm, hps, hsub, hship, hdisc,
      htot, hcs, hcid, hca, hord, hget, hprodpt⟩ :=
      createOrder_created db "u" (buyReq qty) "ON" "TX" "ED" db2 c heq
    have hci : ci = [⟨"p", qty⟩] := by
      have hres : resolveOrderItems db "u" (buyReq qty) = .ok [⟨"p", qty⟩] := rfl
      rw [hres] at hR
      exact (Except.ok.inj hR).symm
    subst hci
    unfold buildOrderItems at hB
    simp only [hp] at hB
    split at hB
    · simp at hB
    · next hact =>
      split at hB
      · simp at hB
      · next hstock =>
        have hitems : order.items = [snapshotLine ⟨"p", qty⟩ p] :=
          (Except.ok.inj hB).symm
        have hg : db2.getProduct "p"
            = some { p with stock_quantity := max 0 (p.stock_quantity - qty) } := by
          rw [hprodpt "p", hitems, updateStock_single db _ p hp]
          simp [DB.setStock, getProduct_mapProduct, hp, snapshotLine]
        have h1 : stockOf db2 = max 0 (p.stock_quantity - qty) := by
          unfold stockOf
          rw [hg]
        have h2 : confirmedQty db2 = confirmedQty db + qty := by
          have hc : isConfirmed order = true := by simp [isConfirmed, hst]
          unfold confirmedQty
          rw [hord, List.filter_append, qtySum_append]
          simp [List.filter_cons, hc, qtySum_cons, qtySum, orderQty,
            hitems, snapshotLine]
        have h3 : stockOf db = p.stock_quantity := by
          unfold stockOf
          rw [hp]
        refine ⟨⟨_, hg⟩, ?_, ?_⟩
        · rw [h1, h2]
          rw [h3] at hsum
          omega
        · intro o ho
          rw [hord] at ho
          rcases List.mem_append.mp ho with hold | hnew
          · exact hshape o hold
          · rw [List.mem_singleton] at hnew
            subst hnew
            exact ⟨Or.inl hst, snapshotLine ⟨"p", qty⟩ p, hitems, rfl⟩
  · exact absurd h (by simp)

/-- A successful cancellation step preserves the trace invariant. -/
theorem runOp_cancel_inv (s₀ : ℤ) (oid : ℕ) (db db' : DB)
    (hinv : traceInv s₀ db) (h : runOp db (.cancel oid) = some db') :
    traceInv s₀ db' := by
  obtain ⟨⟨p, hp⟩, hsum, hshape⟩ := hinv
  simp only [runOp] at h
  split at h
  · next db2 s heq =>
    injection h with h
    subst h
    unfold cancelOrder at heq
    split at heq
    · simp at heq
    · next order hget =>
      split at heq
      · simp at heq
      · next huser =>
        split at heq
        · simp at heq
        · next hguard =>
          injection heq with h1 h2
          have hget' : db.orders.get? oid = some order := hget
          have hmem : order ∈ db.orders := List.get?_mem hget'
          obtain ⟨hstat, it, hitems, hitpid⟩ := hshape order hmem
          have hconf : order.status = .confirmed := by
            rcases not_and_or.mp hguard with hg | hg
            · have hpend := not_not.mp hg
              rcases hstat with hh | hh <;> rw [hpend] at hh <;>
                exact OrderStatus.noConfusion hh
            · exact not_not.mp hg
          subst h1
          set f : Order → Order := fun o =>
            { o with status := OrderStatus.cancelled,
                     payment_status := PaymentStatus.cancelled } with hf
          set db1 := db.updateOrder oid f with hdb1
          have hp1 : db1.getProduct it.product_id = some p := by
            unfold DB.getProduct
            rw [hdb1, updateOrder_products, hitpid]
            exact hp
          rw [hitems, restore_single db1 it p hp1]
          have hg2 : (db1.setStock it.product_id
              (p.stock_quantity + it.quantity)).getProduct "p"
              = some { p with stock_quantity := p.stock_quantity + it.quantity } := by
            have hp1' : db1.getProduct "p" = some p := hitpid ▸ hp1
            simp only [DB.setStock]
            rw [getProduct_mapProduct, hitpid, if_pos rfl, hp1']
            rfl
          have horders : (db1.setStock it.product_id
              (p.stock_quantity + it.quantity)).orders
              = db.orders.set oid (f order) := by
            simp only [DB.setStock, mapProduct_orders, hdb1]
            unfold DB.updateOrder
            simp only [hget']
          have hqty : orderQty order = it.quantity := by
            rw [orderQty, hitems]
            simp
          refine ⟨⟨_, hg2⟩, ?_, ?_⟩
          · have h1' : stockOf (db1.setStock it.product_id
                (p.stock_quantity + it.quantity))
                = p.stock_quantity + it.quantity := by
              unfold stockOf
              rw [hg2]
            have h2' : confirmedQty (db1.setStock it.product_id
                (p.stock_quantity + it.quantity))
                = confirmedQty db - orderQty order := by
              unfold confirmedQty
              rw [horders]
              exact qtySumConfirmed_set_cancelled db.orders oid order hget' hconf
            have h3' : stockOf db = p.stock_quantity := by
              unfold stockOf
              rw [hp]
            rw [h1', h2', hqty]
            rw [h3'] at hsum
            omega
          · intro o ho
            rw [horders] at ho
            rcases List.mem_or_eq_of_mem_set ho with hold | hnew
            · exact hshape o hold
            · subst hnew
              exact ⟨Or.inr rfl, it, hitems ▸ rfl, hitpid⟩
  · exact absurd h (by simp)

/-- The invariant holds at the start of a trace. -/
theorem traceDB_inv (s₀ : ℤ) : traceInv s₀ (traceDB s₀) := by
  refine ⟨⟨{ demoProduct with stock_quantity := s₀ }, rfl⟩, ?_, ?_⟩
  · show s₀ + 0 = s₀
    exact add_zero s₀
  · intro o ho
    simp [traceDB] at ho

/-- Running a trace preserves the invariant. -/
theorem runTrace_inv (s₀ : ℤ) :
    ∀ (ops : List StockOp) (db db' : DB),
      traceInv s₀ db → runTrace db ops = some db' → traceInv s₀ db' := by
  intro ops
  induction ops with
  | nil =>
    intro db db' hinv h
    injection h with h
    exact h ▸ hinv
  | cons op rest ih =>
    intro db db' hinv h
    unfold runTrace at h
    split at h
    · next dbm heq =>
      refine ih dbm db' ?_ h
      cases op with
      | checkout qty => exact runOp_checkout_inv s₀ qty db dbm hinv heq
      | cancel oid => exact runOp_cancel_inv s₀ oid db dbm hinv heq
    · exact absurd h (by simp)

/-- C1 (amended) — Stock conservation: over any sequence of successful
checkout and cancel operations against the single product, run
sequentially through the real handlers, the final stock equals the
initial stock minus the quantities of ALL orders created by the
checkouts plus the quantities of the since-cancelled orders
(equivalently: minus the quantities of the orders still confirmed). The
validated decrement never actually clamps in a sequential trace. -/
theorem stock_conservation (s₀ : ℤ) (ops : List StockOp) (db' : DB)
    (h : runTrace (traceDB s₀) ops = some db') :
    stockOf db' = s₀ - checkedOutQty db' + cancelledQty db' := by
  obtain ⟨-, hsum, hshape⟩ :=
    runTrace_inv s₀ ops (traceDB s₀) db' (traceDB_inv s₀) h
  have hsplit := qtySum_split db'.orders (fun o ho => (hshape o ho).1)
  unfold checkedOutQty confirmedQty cancelledQty at *
  omega

/-- Evaluation of the two-step trace from stock 10: checkout of quantity
2 then cancellation of that order restores the stock to 10. -/
theorem trace_eval :
    runTrace (traceDB 10) [.checkout 2, .cancel 0] = some traceFinalDB := by
  norm_num [runTrace, runOp, createOrder, cancelOrder, buyReq,
    resolveOrderItems, OrderCreateReq.itemsTruthy, buildOrderItems, traceDB,
    demoProduct, demoAddress, DB.getAddress, DB.getUserCart, DB.getOrder,
    DB.updateOrder, alookup, DB.getProduct, snapshotLine, Product.image,
    round2, roundHalfEven, updateProductStock, restoreProductStock,
    DB.setStock, DB.mapProduct, DB.clearCart, DB.setCartItems,
    DB.createOrderDoc, snapshotAddress, traceFinalDB, traceOrder,
    FREE_SHIPPING_THRESHOLD, SHIPPING_COST, List.find?]

/-- Counterexample for C1 as stated: after `[checkout 2, cancel 0]` from
stock 10, the final stock is 10, the still-confirmed (non-cancelled)
quantity sum is 0 and the cancelled quantity sum is 2 — but
`10 ≠ 10 − 0 + 2`, so `final = initial − Σ(confirmed non-cancelled) +
Σ(cancelled)` fails; the cancelled order's quantity must not be both
excluded from the subtracted sum and added back. -/
theorem stock_conservation_counterexample :
    runTrace (traceDB 10) [.checkout 2, .cancel 0] = some traceFinalDB ∧
      stockOf traceFinalDB = 10 ∧
      confirmedQty traceFinalDB = 0 ∧
      cancelledQty traceFinalDB = 2 ∧
      checkedOutQty traceFinalDB = 2 ∧
      ¬(stockOf traceFinalDB
          = 10 - confirmedQty traceFinalDB + cancelledQty traceFinalDB) :=
  ⟨trace_eval, by decide, by decide, by decide, by decide, by decide⟩

/-- Witness for C1 (amended) at the two-step trace:
`10 = 10 − 2 + 2`. -/
theorem stock_conservation_witness :
    runTrace (traceDB 10) [.checkout 2, .cancel 0] = some traceFinalDB ∧
      stockOf traceFinalDB
        = 10 - checkedOutQty traceFinalDB + cancelledQty traceFinalDB :=
  ⟨trace_eval,
    stock_conservation 10 [.checkout 2, .cancel 0] traceFinalDB trace_eval⟩

end ShopEase
